import Mathlib

/-!
Verification of the `txx` Go package (transactional scoping for
`database/sql`): a shallow embedding of `txx.go` together with theorems
about its transaction-reuse decision logic and its wrap/commit/rollback
lifecycle.

Modelling conventions:
* Go pointers that may be `nil` become `Option`; `*sql.Tx` handles are an
  abstract type `τ`, Go `error` values an abstract type `ε`, panic payloads
  an abstract type `π`.
* `sql.IsolationLevel` is an integer enum ordered by `>`; it is embedded as
  `Nat` (all of Go's isolation constants are non-negative, and only the
  order is observed by the code).
* `context.Context` is an immutable chain of `context.WithValue` nodes; the
  package stores `Current` values under one process-private key, so the
  chain is modelled with exactly those nodes.
* The external store (`db.BeginTx`, `tx.Commit`, `tx.Rollback`) is a record
  of pure functions, and each call the orchestrator makes is recorded in an
  event trace so that "commit was issued exactly once" and similar claims
  are statable.
-/

namespace Txx

/-- `sql.IsolationLevel`: an integer enum compared with `>`. -/
abbrev IsolationLevel := Nat

/-- The two fields of `sql.TxOptions` observed by the package
(`txx.go` lines 31 and 35). -/
structure TxOptions where
  readOnly : Bool
  isolation : IsolationLevel
  deriving DecidableEq

/-- `Current` (`txx.go` lines 9-12): the transaction stored in context.
`Tx` is `Option τ` because the Go field is a nilable pointer `*sql.Tx`,
and `Opts` is `Option TxOptions` for the nilable `*sql.TxOptions`. -/
structure Current (τ : Type) where
  Tx : Option τ
  Opts : Option TxOptions
  deriving DecidableEq

section

variable {τ ε π : Type}

/-- `Current.IsValid` (`txx.go` lines 15-17): `return c.Tx != nil`. -/
def Current.IsValid (c : Current τ) : Bool :=
  c.Tx.isSome

/-- `Current.NewTransactionRequired` (`txx.go` lines 20-36), translated
branch for branch:
line 21: `if !c.IsValid() ... return true`;
lines 25-29: `if c.Opts == nil ... return opts != nil ... else if opts == nil ... return true`;
lines 31-33: `if c.Opts.ReadOnly != opts.ReadOnly ... return true`;
line 35: `return opts.Isolation > c.Opts.Isolation`. -/
def Current.NewTransactionRequired (c : Current τ) (opts : Option TxOptions) : Bool :=
  if !c.IsValid then
    true
  else
    match c.Opts, opts with
    | none, opts => opts.isSome
    | some _, none => true
    | some copts, some o =>
      if copts.readOnly != o.readOnly then
        true
      else
        decide (o.isolation > copts.isolation)

/-- `ReadOnly` (`txx.go` lines 39-41): a pointer to
`sql.TxOptions` with `ReadOnly` set and default (weakest) isolation. -/
def ReadOnly : Option TxOptions :=
  some ⟨true, 0⟩

/-- A Go `context.Context` as seen by this package: either a context that
carries no value under the package's private `ctxKey` (`background`), or a
`context.WithValue` child carrying a `Current` under that key. The chain is
immutable; `WithValue` derives a child and never mutates its parent. -/
inductive Context (τ : Type) : Type where
  | background : Context τ
  | withValue : Context τ → Current τ → Context τ
  deriving DecidableEq

/-- `Get` (`txx.go` lines 88-94): look up the `Current` stored under
`ctxKey`, defaulting to the zero value `Current{}` when absent. -/
def Get : Context τ → Current τ
  | .background => ⟨none, none⟩
  | .withValue _ c => c

/-- `Set` (`txx.go` lines 96-101): derive a child context carrying a fresh
`Current` built from the given transaction handle and options. -/
def Set (ctx : Context τ) (tx : Option τ) (opts : Option TxOptions) : Context τ :=
  .withValue ctx ⟨tx, opts⟩

/-- The external store collaborator: `db.BeginTx(ctx, opts)` returning a
handle or an error, and the `Commit`/`Rollback` primitives on a handle
(`nil` error is `none`). -/
structure DB (τ ε : Type) where
  beginTx : Context τ → Option TxOptions → Except ε τ
  commit : τ → Option ε
  rollback : τ → Option ε

/-- How a caller-supplied work function `f(ctx) error` can finish: a normal
return carrying `nil` or an error, or a propagating panic with payload `p`. -/
inductive WorkResult (ε π : Type) : Type where
  | ret : Option ε → WorkResult ε π
  | fault : π → WorkResult ε π
  deriving DecidableEq

/-- How `Wrap`/`Ensure` can finish: a normal return of a Go `error`
(`none` is `nil`), or a re-raised panic. -/
inductive Outcome (ε π : Type) : Type where
  | ret : Option ε → Outcome ε π
  | fault : π → Outcome ε π
  deriving DecidableEq

/-- A Go `return f(ctx)` of a possibly-panicking work function: the work's
termination, seen as the caller's termination. -/
def toOutcome : WorkResult ε π → Outcome ε π
  | .ret e => .ret e
  | .fault p => .fault p

/-- One observable call the orchestrator makes on its collaborators:
`db.BeginTx` (with success flag), an invocation of the work function
(recording the context it was given), `tx.Commit`, or `tx.Rollback`. -/
inductive Event (τ : Type) : Type where
  | evBegin : Bool → Event τ
  | evWork : Context τ → Event τ
  | evCommit : Event τ
  | evRollback : Event τ
  deriving DecidableEq

/-- `Wrap` (`txx.go` lines 60-81), with its event trace. Control flow of the
Go function:
* line 61-64: `tx, err := db.BeginTx(ctx, opts)`; on error return it at once
  (no defer is registered yet, so no commit/rollback and no call to `f`);
* line 78: `err = f(Set(ctx, tx, opts))`;
* line 80: `return err` — this copies `err` into the function's UNNAMED
  result slot before the deferred closure of lines 66-76 runs;
* deferred closure: if `f` panicked, `recover()` is non-nil: roll back with
  the rollback error discarded (`_ = tx.Rollback()`), then `panic(p)`
  re-raises the same payload; else if `err != nil`, roll back, again
  discarding the rollback error, and the result slot already holds `err`;
  else `err = tx.Commit()` — this assignment writes the LOCAL variable
  `err` only: because the result parameter is unnamed, the value returned
  to the caller stays the `nil` captured at line 80, whatever `Commit`
  returned. The model binds the discarded primitive results to make that
  explicit. -/
def Wrap (db : DB τ ε) (ctx : Context τ) (opts : Option TxOptions)
    (f : Context τ → WorkResult ε π) : Outcome ε π × List (Event τ) :=
  match db.beginTx ctx opts with
  | .error err => (.ret (some err), [.evBegin false])
  | .ok tx =>
    let child := Set ctx (some tx) opts
    match f child with
    | .fault p =>
      let _rollbackErr := db.rollback tx
      (.fault p, [.evBegin true, .evWork child, .evRollback])
    | .ret (some e) =>
      let _rollbackErr := db.rollback tx
      (.ret (some e), [.evBegin true, .evWork child, .evRollback])
    | .ret none =>
      let _commitErr := db.commit tx
      (.ret none, [.evBegin true, .evWork child, .evCommit])

/-- `Ensure` (`txx.go` lines 47-54): read the carrier from `ctx`; if a new
transaction is required delegate to `Wrap` with the same arguments,
otherwise `return f(ctx)` on the unmodified context (a panic of `f`
propagates through `Ensure` unchanged). -/
def Ensure (db : DB τ ε) (ctx : Context τ) (opts : Option TxOptions)
    (f : Context τ → WorkResult ε π) : Outcome ε π × List (Event τ) :=
  if (Get ctx).NewTransactionRequired opts then
    Wrap db ctx opts f
  else
    (toOutcome (f ctx), [.evWork ctx])

end

/-- Height of the `context.WithValue` chain; used to show that `Set`
derives a context distinct from its parent. -/
def Context.depth {τ : Type} : Context τ → Nat
  | .background => 0
  | .withValue parent _ => parent.depth + 1

/-- A concrete store whose primitives all succeed; `BeginTx` hands out
session handle `1`. -/
def dbOK : DB Nat Nat :=
  ⟨fun _ _ => .ok 1, fun _ => none, fun _ => none⟩

/-- A concrete store whose `BeginTx` succeeds with handle `1` and whose
`Commit` fails with error `42`. -/
def dbCommitFail : DB Nat Nat :=
  ⟨fun _ _ => .ok 1, fun _ => some 42, fun _ => none⟩

/-- A concrete store whose `BeginTx` succeeds with handle `1` and whose
`Rollback` fails with error `9`. -/
def dbRollbackFail : DB Nat Nat :=
  ⟨fun _ _ => .ok 1, fun _ => none, fun _ => some 9⟩

/-- A concrete store whose `BeginTx` fails with error `5`. -/
def dbBeginFail : DB Nat Nat :=
  ⟨fun _ _ => .error 5, fun _ => none, fun _ => none⟩

/-- A work function that returns `nil`. -/
def workOK : Context Nat → WorkResult Nat Nat :=
  fun _ => .ret none

/-- A work function that returns error `7`. -/
def workErr : Context Nat → WorkResult Nat Nat :=
  fun _ => .ret (some 7)

/-- A work function that panics with payload `3`. -/
def workFault : Context Nat → WorkResult Nat Nat :=
  fun _ => .fault 3

section

variable {τ ε π : Type}

/-- A `WithValue` child is a different context value from its parent. -/
theorem withValue_ne_parent (ctx : Context τ) (c : Current τ) :
    Context.withValue ctx c ≠ ctx := by
  intro h
  have hd := congrArg Context.depth h
  simp only [Context.depth] at hd
  omega

/-- A carrier holding a handle reuses itself: requesting exactly the options
a transaction was opened with never requires a new transaction. -/
theorem newTransactionRequired_self (tx : τ) (o : Option TxOptions) :
    (Current.mk (some tx) o).NewTransactionRequired o = false := by
  cases o with
  | none => rfl
  | some x => simp [Current.NewTransactionRequired, Current.IsValid]

/-- Claim C1: the spec says that when `work` returns `nil`, `Wrap` issues
commit exactly once and never rollback, and that a commit failure becomes
the error `Wrap` returns. The first half holds, the second does not: with a
store whose `Commit` on handle `1` fails with error `42` and a work
function returning `nil`, the trace records begin, one work invocation and
one commit (and no rollback), yet the outcome is `ret none` — Go's `nil` —
not `ret (some 42)`. The deferred `err = tx.Commit()` writes a local
variable after `return err` has already fixed the unnamed result, so the
commit error is dropped. -/
theorem wrap_commit_error_dropped :
    dbCommitFail.commit 1 = some 42 ∧
    Wrap dbCommitFail Context.background none workOK =
      (Outcome.ret none,
        [Event.evBegin true, Event.evWork (Set Context.background (some 1) none),
          Event.evCommit]) :=
  ⟨rfl, rfl⟩

/-- Claim C2: when `work` returns a non-null error `e`, `Wrap` issues
rollback (exactly once, and never commit) and returns exactly `e`; the
store's `rollback` function is unconstrained here, so a rollback failure
can neither replace nor hide `e`. -/
theorem wrap_work_error_rolls_back (db : DB τ ε) (ctx : Context τ)
    (opts : Option TxOptions) (f : Context τ → WorkResult ε π) (tx : τ) (e : ε)
    (hb : db.beginTx ctx opts = Except.ok tx)
    (hf : f (Set ctx (some tx) opts) = WorkResult.ret (some e)) :
    (Wrap db ctx opts f).1 = Outcome.ret (some e) ∧
    (Wrap db ctx opts f).2 =
      [Event.evBegin true, Event.evWork (Set ctx (some tx) opts), Event.evRollback] ∧
    Event.evCommit ∉ (Wrap db ctx opts f).2 := by
  simp [Wrap, hb, hf]

/-- Claim C2, witnessed at a store whose rollback fails with error `9` and
a work function returning error `7`: `Wrap` still returns error `7`. -/
theorem wrap_work_error_rolls_back_witness :
    dbRollbackFail.beginTx Context.background none = Except.ok 1 ∧
    workErr (Set Context.background (some 1) none) = WorkResult.ret (some 7) ∧
    dbRollbackFail.rollback 1 = some 9 ∧
    ((Wrap dbRollbackFail Context.background none workErr).1 = Outcome.ret (some 7) ∧
      (Wrap dbRollbackFail Context.background none workErr).2 =
        [Event.evBegin true, Event.evWork (Set Context.background (some 1) none),
          Event.evRollback] ∧
      Event.evCommit ∉ (Wrap dbRollbackFail Context.background none workErr).2) :=
  ⟨rfl, rfl, rfl,
    wrap_work_error_rolls_back dbRollbackFail Context.background none workErr 1 7 rfl rfl⟩

/-- Claim C3: when `work` panics with payload `p`, `Wrap` issues rollback
(exactly once, never commit; the store's `rollback` function is
unconstrained, so its failure is ignored) and re-raises the identical
payload `p` as a fault — the outcome is `fault p`, not a normal `ret`. -/
theorem wrap_fault_rolls_back_and_reraises (db : DB τ ε) (ctx : Context τ)
    (opts : Option TxOptions) (f : Context τ → WorkResult ε π) (tx : τ) (p : π)
    (hb : db.beginTx ctx opts = Except.ok tx)
    (hf : f (Set ctx (some tx) opts) = WorkResult.fault p) :
    (Wrap db ctx opts f).1 = Outcome.fault p ∧
    (Wrap db ctx opts f).2 =
      [Event.evBegin true, Event.evWork (Set ctx (some tx) opts), Event.evRollback] ∧
    Event.evCommit ∉ (Wrap db ctx opts f).2 := by
  simp [Wrap, hb, hf]

/-- Claim C3, witnessed at a store whose rollback fails with error `9` and
a work function panicking with payload `3`. -/
theorem wrap_fault_rolls_back_and_reraises_witness :
    dbRollbackFail.beginTx Context.background none = Except.ok 1 ∧
    workFault (Set Context.background (some 1) none) = WorkResult.fault 3 ∧
    ((Wrap dbRollbackFail Context.background none workFault).1 = Outcome.fault 3 ∧
      (Wrap dbRollbackFail Context.background none workFault).2 =
        [Event.evBegin true, Event.evWork (Set Context.background (some 1) none),
          Event.evRollback] ∧
      Event.evCommit ∉ (Wrap dbRollbackFail Context.background none workFault).2) :=
  ⟨rfl, rfl,
    wrap_fault_rolls_back_and_reraises dbRollbackFail Context.background none workFault 1 3
      rfl rfl⟩

/-- Claim C4: when `BeginTx` fails with error `e`, `Wrap` returns exactly
`e`, the trace records only the failed begin, work is never invoked, and
neither commit nor rollback is issued. -/
theorem wrap_begin_failure_returns_immediately (db : DB τ ε) (ctx : Context τ)
    (opts : Option TxOptions) (f : Context τ → WorkResult ε π) (e : ε)
    (hb : db.beginTx ctx opts = Except.error e) :
    (Wrap db ctx opts f).1 = Outcome.ret (some e) ∧
    (Wrap db ctx opts f).2 = [Event.evBegin false] ∧
    (∀ c, Event.evWork c ∉ (Wrap db ctx opts f).2) ∧
    Event.evCommit ∉ (Wrap db ctx opts f).2 ∧
    Event.evRollback ∉ (Wrap db ctx opts f).2 := by
  simp [Wrap, hb]

/-- Claim C4, witnessed at a store whose begin fails with error `5`. -/
theorem wrap_begin_failure_returns_immediately_witness :
    dbBeginFail.beginTx Context.background none = Except.error 5 ∧
    (Wrap dbBeginFail Context.background none workOK).1 = Outcome.ret (some 5) ∧
    (Wrap dbBeginFail Context.background none workOK).2 = [Event.evBegin false] ∧
    Event.evWork Context.background ∉ (Wrap dbBeginFail Context.background none workOK).2 ∧
    Event.evCommit ∉ (Wrap dbBeginFail Context.background none workOK).2 ∧
    Event.evRollback ∉ (Wrap dbBeginFail Context.background none workOK).2 :=
  have h :=
    wrap_begin_failure_returns_immediately dbBeginFail Context.background none workOK 5 rfl
  ⟨rfl, h.1, h.2.1, h.2.2.1 Context.background, h.2.2.2.1, h.2.2.2.2⟩

/-- Claim C5: on a valid carrier with both option values non-null, a new
transaction is required exactly when the `readOnly` flags differ or the
requested isolation is strictly greater than the held isolation; in
particular equal flags with requested isolation ≤ held isolation give
`false`, and differing flags give `true` whatever the isolations. -/
theorem new_transaction_required_both_non_null (tx : τ) (held req : TxOptions) :
    ((Current.mk (some tx) (some held)).NewTransactionRequired (some req) = true
      ↔ (held.readOnly ≠ req.readOnly ∨ held.isolation < req.isolation)) := by
  by_cases h : held.readOnly = req.readOnly
  · simp [Current.NewTransactionRequired, Current.IsValid, h]
  · simp [Current.NewTransactionRequired, Current.IsValid, bne_iff_ne, h]

/-- Claim C5, witnessed at equal flags with a strict isolation increase. -/
theorem new_transaction_required_both_non_null_witness :
    ((Current.mk (some (3 : Nat)) (some (TxOptions.mk true 0))).NewTransactionRequired
        (some (TxOptions.mk true 1)) = true
      ↔ ((TxOptions.mk true 0).readOnly ≠ (TxOptions.mk true 1).readOnly
          ∨ (TxOptions.mk true 0).isolation < (TxOptions.mk true 1).isolation)) :=
  new_transaction_required_both_non_null 3 (TxOptions.mk true 0) (TxOptions.mk true 1)

/-- Claim C6: a carrier whose transaction handle is absent is invalid
whatever its options field holds, and `NewTransactionRequired` on it is
`true` for every requested options value, null included. -/
theorem new_transaction_required_invalid_carrier (held reqOpts : Option TxOptions) :
    (Current.mk (none : Option τ) held).IsValid = false ∧
    (Current.mk (none : Option τ) held).NewTransactionRequired reqOpts = true :=
  ⟨rfl, rfl⟩

/-- Claim C6, witnessed at an invalid carrier that nevertheless holds
read-only options, with a null request. -/
theorem new_transaction_required_invalid_carrier_witness :
    (Current.mk (none : Option Nat) ReadOnly).IsValid = false ∧
    (Current.mk (none : Option Nat) ReadOnly).NewTransactionRequired none = true :=
  new_transaction_required_invalid_carrier ReadOnly none

/-- Claim C7: on a valid carrier, held-null with non-null request gives
`true`, non-null held with null request gives `true`, and null on both
sides gives `false`. -/
theorem new_transaction_required_one_sided_null (tx : τ) (req held : TxOptions) :
    (Current.mk (some tx) none).NewTransactionRequired (some req) = true ∧
    (Current.mk (some tx) (some held)).NewTransactionRequired none = true ∧
    (Current.mk (some tx) none).NewTransactionRequired (none : Option TxOptions) = false :=
  ⟨rfl, rfl, rfl⟩

/-- Claim C7, witnessed at handle `2` with read-only options. -/
theorem new_transaction_required_one_sided_null_witness :
    (Current.mk (some (2 : Nat)) none).NewTransactionRequired ReadOnly = true ∧
    (Current.mk (some (2 : Nat)) ReadOnly).NewTransactionRequired none = true ∧
    (Current.mk (some (2 : Nat)) none).NewTransactionRequired (none : Option TxOptions) = false :=
  new_transaction_required_one_sided_null 2 ⟨true, 0⟩ ⟨true, 0⟩

/-- Claim C8: `Get` after `Set` yields a carrier holding exactly the given
handle and options; `Set` yields a new context value distinct from the one
it was given (which, being immutable, is unaffected); and a context
carrying nothing yields the empty carrier, which is invalid. -/
theorem get_set_roundtrip (ctx : Context τ) (s : Option τ) (o : Option TxOptions) :
    Get (Set ctx s o) = Current.mk s o ∧
    Set ctx s o ≠ ctx ∧
    Get (Context.background : Context τ) = Current.mk none none ∧
    (Current.mk (none : Option τ) none).IsValid = false :=
  ⟨rfl, withValue_ne_parent ctx ⟨s, o⟩, rfl, rfl⟩

/-- Claim C8, witnessed at handle `4` with read-only options. -/
theorem get_set_roundtrip_witness :
    Get (Set Context.background (some (4 : Nat)) ReadOnly) = Current.mk (some 4) ReadOnly ∧
    Set Context.background (some (4 : Nat)) ReadOnly ≠ Context.background ∧
    Get (Context.background : Context Nat) = Current.mk none none ∧
    (Current.mk (none : Option Nat) none).IsValid = false :=
  get_set_roundtrip Context.background (some 4) ReadOnly

/-- Claim C9: when the carrier in `ctx` does not require a new transaction
for the requested options, `Ensure` returns the work's result verbatim and
its trace is exactly one work invocation on the unmodified `ctx` — no
begin, commit or rollback, so the work observes the very carrier its
caller held. -/
theorem ensure_reuse_path (db : DB τ ε) (ctx : Context τ) (opts : Option TxOptions)
    (f : Context τ → WorkResult ε π)
    (h : (Get ctx).NewTransactionRequired opts = false) :
    Ensure db ctx opts f = (toOutcome (f ctx), [Event.evWork ctx]) := by
  simp [Ensure, h]

/-- Claim C9, witnessed on a context carrying handle `5` with null options,
requested options null, work returning error `7`. -/
theorem ensure_reuse_path_witness :
    (Get (Set Context.background (some (5 : Nat)) none)).NewTransactionRequired none = false ∧
    Ensure dbOK (Set Context.background (some (5 : Nat)) none) none workErr =
      (toOutcome (workErr (Set Context.background (some 5) none)),
        [Event.evWork (Set Context.background (some 5) none)]) :=
  ⟨rfl, ensure_reuse_path dbOK (Set Context.background (some 5) none) none workErr rfl⟩

/-- Claim C10: when `BeginTx` hands `Wrap` the handle `tx`, the trace of
`Wrap` contains the work invocation on the child context `Set ctx (some tx)
o`; the carrier installed there satisfies `NewTransactionRequired o =
false` (for every `o`, null included), so an `Ensure` nested on that child
context requesting the same options `o` reuses the enclosing transaction:
its trace is a single work invocation and no begin. -/
theorem wrap_installs_reusable_carrier (db dbNested : DB τ ε) (ctx : Context τ)
    (o : Option TxOptions) (f g : Context τ → WorkResult ε π) (tx : τ)
    (hb : db.beginTx ctx o = Except.ok tx) :
    Event.evWork (Set ctx (some tx) o) ∈ (Wrap db ctx o f).2 ∧
    (Get (Set ctx (some tx) o)).NewTransactionRequired o = false ∧
    Ensure dbNested (Set ctx (some tx) o) o g =
      (toOutcome (g (Set ctx (some tx) o)), [Event.evWork (Set ctx (some tx) o)]) := by
  have hself : (Get (Set ctx (some tx) o)).NewTransactionRequired o = false :=
    newTransactionRequired_self tx o
  refine ⟨?_, hself, ?_⟩
  · cases hfc : f (Set ctx (some tx) o) with
    | ret e =>
      cases e with
      | none => simp [Wrap, hb, hfc]
      | some e => simp [Wrap, hb, hfc]
    | fault p => simp [Wrap, hb, hfc]
  · simp [Ensure, hself]

/-- Claim C10, witnessed at a store handing out handle `1`, read-only
options, and a nested `Ensure` requesting read-only again. -/
theorem wrap_installs_reusable_carrier_witness :
    dbOK.beginTx Context.background ReadOnly = Except.ok 1 ∧
    (Event.evWork (Set Context.background (some 1) ReadOnly)
        ∈ (Wrap dbOK Context.background ReadOnly workOK).2 ∧
      (Get (Set Context.background (some 1) ReadOnly)).NewTransactionRequired ReadOnly
        = false ∧
      Ensure dbOK (Set Context.background (some 1) ReadOnly) ReadOnly workOK =
        (toOutcome (workOK (Set Context.background (some 1) ReadOnly)),
          [Event.evWork (Set Context.background (some 1) ReadOnly)])) :=
  ⟨rfl,
    wrap_installs_reusable_carrier dbOK dbOK Context.background ReadOnly workOK workOK 1 rfl⟩

end

end Txx
